import Mathlib

/-!
Shallow embedding of the peer-session layer of omnius-labs/axus-rs:
the handshake run by the session accepter (`service/session/accepter.rs`),
the wire message codecs (`service/session/message.rs`), the discovery loop
(`service/engine/node/node_finder.rs`) and the volatile membership set.
-/

set_option autoImplicit false

namespace Axus

/-- Modelled from the spec: `SessionType` is defined in `service/session/model`,
which is not under `src/`; per the spec it is the closed enumeration of session
purposes, currently the single variant `NodeFinder`. -/
inductive SessionType where
  | NodeFinder
deriving DecidableEq

/-- Modelled from the spec: `SessionHandshakeType` (in `service/session/model`,
not under `src/`) is `Connected` (this node initiated) or `Accepted`. -/
inductive SessionHandshakeType where
  | Connected
  | Accepted
deriving DecidableEq

/-- `SessionVersion` bitflags over u32 (`message.rs`): field `bits`. -/
structure SessionVersion where
  bits : Nat
deriving DecidableEq

/-- The only declared flag: `V1 = 1`. -/
def SessionVersion.V1 : SessionVersion := ⟨1⟩

/-- Mask of all declared flag bits (bitflags generates this from the flags). -/
def SessionVersion.knownMask : Nat := 1

/-- `SessionVersion::from_bits`: succeeds iff no unknown bit is set. -/
def SessionVersion.fromBits (n : Nat) : Option SessionVersion :=
  if n &&& SessionVersion.knownMask = n then some ⟨n⟩ else none

/-- The `|` operator on bitflags (bitwise union), as used at `accepter.rs:138`. -/
def SessionVersion.union (a b : SessionVersion) : SessionVersion :=
  ⟨a.bits ||| b.bits⟩

/-- Bitwise intersection of two version sets (the `&` operator on bitflags). -/
def SessionVersion.inter (a b : SessionVersion) : SessionVersion :=
  ⟨a.bits &&& b.bits⟩

/-- `bitflags` `contains`: all bits of `b` are present in `a`. -/
def SessionVersion.contains (a b : SessionVersion) : Bool :=
  a.bits &&& b.bits == b.bits

/-- External `OmniCert` (from `omnius_core_omnikit`): an opaque signed blob. -/
structure OmniCert where
  payload : List Nat
deriving DecidableEq

/-- `OmniAddress` wraps an address string (`model` module). -/
structure OmniAddress where
  value : String
deriving DecidableEq

/-- `OmniAddress::new`. -/
def OmniAddress.new (s : String) : OmniAddress := ⟨s⟩

structure HelloMessage where
  version : SessionVersion
deriving DecidableEq

structure V1ChallengeMessage where
  nonce : List Nat
deriving DecidableEq

structure V1SignatureMessage where
  cert : OmniCert
deriving DecidableEq

inductive V1RequestType where
  | Unknown
  | NodeExchanger
deriving DecidableEq

structure V1RequestMessage where
  request_type : V1RequestType
deriving DecidableEq

inductive V1ResultType where
  | Unknown
  | Accept
  | Reject
deriving DecidableEq

structure V1ResultMessage where
  result_type : V1ResultType
deriving DecidableEq

/-- `ToPrimitive` discriminants of `V1RequestType` (`Unknown = 0, NodeExchanger = 1`). -/
def V1RequestType.toU32 : V1RequestType → Nat
  | .Unknown => 0
  | .NodeExchanger => 1

/-- `FromPrimitive::from_u32` for `V1RequestType`. -/
def V1RequestType.fromU32 (n : Nat) : Option V1RequestType :=
  if n = 0 then some .Unknown
  else if n = 1 then some .NodeExchanger
  else none

/-- `ToPrimitive` discriminants of `V1ResultType` (declaration order: 0, 1, 2). -/
def V1ResultType.toU32 : V1ResultType → Nat
  | .Unknown => 0
  | .Accept => 1
  | .Reject => 2

/-- `FromPrimitive::from_u32` for `V1ResultType`. -/
def V1ResultType.fromU32 (n : Nat) : Option V1ResultType :=
  if n = 0 then some .Unknown
  else if n = 1 then some .Accept
  else if n = 2 then some .Reject
  else none

/-- `V1RequestMessage::pack`: writes the 32-bit discriminant. -/
def V1RequestMessage.pack (m : V1RequestMessage) : List Nat :=
  [m.request_type.toU32]

/-- `V1RequestMessage::unpack`: reads one u32 and decodes it. -/
def V1RequestMessage.unpack : List Nat → Option V1RequestMessage
  | [] => none
  | n :: _ => (V1RequestType.fromU32 n).map (fun t => ⟨t⟩)

/-- `V1ResultMessage::pack`: writes the 32-bit discriminant. -/
def V1ResultMessage.pack (m : V1ResultMessage) : List Nat :=
  [m.result_type.toU32]

/-- `V1ResultMessage::unpack`: reads one u32 and decodes it. -/
def V1ResultMessage.unpack : List Nat → Option V1ResultMessage
  | [] => none
  | n :: _ => (V1ResultType.fromU32 n).map (fun t => ⟨t⟩)

/-- `Session` (`service/session/model`, fields as constructed at `accepter.rs:169`);
the owned stream is a resource, not data, and is omitted. -/
structure Session where
  typ : SessionType
  address : OmniAddress
  handshake_type : SessionHandshakeType
  signature : OmniCert
deriving DecidableEq

/-- A tokio mpsc channel for `Session`s: its buffered contents and whether a
sender handle is still alive (the channel is closed once all senders drop). -/
structure MpscChannel where
  buf : List Session
  senderAlive : Bool
deriving DecidableEq

/-- `mpsc::channel(20)` in `SessionAccepter::new`. -/
def channelCapacity : Nat := 20

/-- The accepter spawns 3 worker tasks (`for _ in 0..3` in `create_accept_task`). -/
def accepterWorkerCount : Nat := 3

/-- The session types for which `SessionAccepter::new` creates channels:
`for typ in [SessionType::NodeFinder].iter()`. -/
def sessionTypesInit : List SessionType := [SessionType.NodeFinder]

/-- The external signing primitive (`OmniSigner::sign` and `signature.verify`),
an excluded collaborator held abstract. -/
structure CryptoEnv where
  sign : List Nat → OmniCert
  verify : OmniCert → List Nat → Bool

/-- One inbound connection attempt, as seen by `AccepterTask::accept`: whether
the transport accept succeeded, the peer address, the bytes the random source
yields, and each message the peer delivers (`none` = recv/decode failure). -/
structure AcceptInput where
  tcpOk : Bool
  peerAddr : String
  peerHello : Option HelloMessage
  selfRandom : List Nat
  peerChallenge : Option V1ChallengeMessage
  peerSignature : Option V1SignatureMessage
  peerRequest : Option V1RequestMessage
deriving DecidableEq

/-- A message written to the stream by the responder. -/
inductive OutMsg where
  | hello (m : HelloMessage)
  | challenge (m : V1ChallengeMessage)
  | signature (m : V1SignatureMessage)
  | result (m : V1ResultMessage)
deriving DecidableEq

/-- The error outcomes of `AccepterTask::accept` (each `anyhow` bail or `?`). -/
inductive AcceptErr where
  | transport
  | invalidNonceLength
  | invalidSignature
  | unsupportedVersion (bits : Nat)
  | unknownRequestType
  | unwrapPanic
deriving DecidableEq

/-- Result of one run of `AccepterTask::accept`: the messages sent, the final
per-type channel state, and the `anyhow::Result<()>` outcome. -/
structure AcceptResult where
  sent : List OutMsg
  chan : SessionType → MpscChannel
  outcome : Except AcceptErr Unit

/-- `AccepterTask::accept` (`accepter.rs:130-188`), over the channel states of
the `senders` map. `sendersKeys` is the key set of that map; a missing key hits
the `.unwrap()` at line 163 (`unwrapPanic`). The source's `match` on
`request_type` has an arm only for `NodeExchanger`; the absent `Unknown` arm is
modelled as a handshake-terminating error (the spec: unknown request types are
rejected). -/
def AccepterTask.accept (crypto : CryptoEnv) (sendersKeys : List SessionType)
    (chan : SessionType → MpscChannel) (input : AcceptInput) : AcceptResult :=
  if input.tcpOk = false then
    { sent := [], chan := chan, outcome := .error .transport }
  else
    let sendHelloMessage : HelloMessage := { version := SessionVersion.V1 }
    match input.peerHello with
    | none => { sent := [.hello sendHelloMessage], chan := chan, outcome := .error .transport }
    | some receivedHelloMessage =>
      let version := SessionVersion.union sendHelloMessage.version receivedHelloMessage.version
      if version.contains SessionVersion.V1 then
        if input.selfRandom.length = 32 then
          let sendNonce := input.selfRandom
          let sendChallengeMessage : V1ChallengeMessage := { nonce := sendNonce }
          match input.peerChallenge with
          | none =>
            { sent := [.hello sendHelloMessage, .challenge sendChallengeMessage],
              chan := chan, outcome := .error .transport }
          | some receiveChallengeMessage =>
            let sendSignatureMessage : V1SignatureMessage :=
              { cert := crypto.sign receiveChallengeMessage.nonce }
            let sentHead : List OutMsg :=
              [.hello sendHelloMessage, .challenge sendChallengeMessage,
               .signature sendSignatureMessage]
            match input.peerSignature with
            | none => { sent := sentHead, chan := chan, outcome := .error .transport }
            | some receivedSignatureMessage =>
              if crypto.verify receivedSignatureMessage.cert sendNonce = false then
                { sent := sentHead, chan := chan, outcome := .error .invalidSignature }
              else
                match input.peerRequest with
                | none => { sent := sentHead, chan := chan, outcome := .error .transport }
                | some receivedSessionRequestMessage =>
                  match receivedSessionRequestMessage.request_type with
                  | .Unknown =>
                    { sent := sentHead, chan := chan, outcome := .error .unknownRequestType }
                  | .NodeExchanger =>
                    let typ := SessionType.NodeFinder
                    if sendersKeys.contains typ then
                      if (chan typ).buf.length < channelCapacity then
                        let session : Session :=
                          { typ := typ
                            address := OmniAddress.new ("tcp(" ++ input.peerAddr ++ ")")
                            handshake_type := .Accepted
                            signature := receivedSignatureMessage.cert }
                        { sent := sentHead ++ [.result { result_type := .Accept }]
                          chan := fun t =>
                            if t = typ then { chan t with buf := (chan t).buf ++ [session] }
                            else chan t
                          outcome := .ok () }
                      else
                        { sent := sentHead ++ [.result { result_type := .Reject }]
                          chan := chan, outcome := .ok () }
                    else
                      { sent := sentHead, chan := chan, outcome := .error .unwrapPanic }
        else
          { sent := [.hello sendHelloMessage], chan := chan, outcome := .error .invalidNonceLength }
      else
        { sent := [.hello sendHelloMessage], chan := chan,
          outcome := .error (.unsupportedVersion version.bits) }

/-- One worker of `AccepterTask::run`: each loop iteration runs one accept and
discards its result (`let _ = self.accept().await;`), so the loop always
proceeds to the next iteration. Returns the final channel state and the number
of iterations performed on the given sequence of inbound attempts. -/
def AccepterTask.runWorker (crypto : CryptoEnv) (sendersKeys : List SessionType) :
    (SessionType → MpscChannel) → List AcceptInput → (SessionType → MpscChannel) × Nat
  | chan, [] => (chan, 0)
  | chan, input :: rest =>
    let r := AccepterTask.accept crypto sendersKeys chan input
    let next := AccepterTask.runWorker crypto sendersKeys r.chan rest
    (next.1, next.2 + 1)

/-- The worker pool: each worker runs its own sequence of inbound attempts
against the shared channel state (the mutex serializes channel operations). -/
def AccepterTask.runPool (crypto : CryptoEnv) (sendersKeys : List SessionType) :
    (SessionType → MpscChannel) → List (List AcceptInput) → (SessionType → MpscChannel) × List Nat
  | chan, [] => (chan, [])
  | chan, w :: ws =>
    let r := AccepterTask.runWorker crypto sendersKeys chan w
    let next := AccepterTask.runPool crypto sendersKeys r.1 ws
    (next.1, r.2 :: next.2)

/-- The `SessionAccepter`'s observable state: key sets of the `senders` and
`receivers` maps, the per-type channel state, the cancellation token, and
whether `terminate` has awaited the joined worker tasks. -/
structure SessionAccepterState where
  sendersKeys : List SessionType
  receiversKeys : List SessionType
  chan : SessionType → MpscChannel
  cancelled : Bool
  joined : Bool

/-- The state after `SessionAccepter::new`: one fresh capacity-20 channel per
type in `sessionTypesInit`, its sender and receiver inserted into the two maps;
token not yet cancelled, worker tasks spawned and not yet joined. -/
def SessionAccepter.newState : SessionAccepterState :=
  { sendersKeys := sessionTypesInit
    receiversKeys := sessionTypesInit
    chan := fun _ => { buf := [], senderAlive := true }
    cancelled := false
    joined := false }

/-- `SessionAccepter::terminate`: cancels the token and awaits the joined
worker handles. It does not touch the `senders` or `receivers` maps, so no
sender is dropped and no channel becomes closed. -/
def SessionAccepter.terminate (st : SessionAccepterState) : SessionAccepterState :=
  { st with cancelled := true, joined := true }

/-- Outcome of a call to `SessionAccepter::accept`: a session, the
`Session not found` error (recv returned `None`, i.e. channel closed), a
suspension that has not resolved (recv pending), or the `.unwrap()` panic on a
missing receiver. -/
inductive AcceptCallOutcome where
  | session (s : Session)
  | closedError
  | pending
  | unwrapPanic
deriving DecidableEq

/-- `SessionAccepter::accept` (`accepter.rs:99-104`): looks the receiver up
(`.unwrap()`), then `recv().await`: yields the first buffered session, the
closed error if the buffer is empty and no sender is alive, and otherwise
remains pending. -/
def SessionAccepter.acceptCall (st : SessionAccepterState) (typ : SessionType) :
    AcceptCallOutcome × SessionAccepterState :=
  if st.receiversKeys.contains typ then
    match (st.chan typ).buf with
    | s :: rest =>
      (.session s,
        { st with chan := fun t => if t = typ then { st.chan t with buf := rest } else st.chan t })
    | [] =>
      if (st.chan typ).senderAlive then (.pending, st) else (.closedError, st)
  else
    (.unwrapPanic, st)

/-- Modelled from the spec: the source of `VolatileHashSet` (`service/util`) is
not under `src/`. Per the spec's Volatile Membership Set: a mapping from keys to
their insertion/last-seen timestamp together with a TTL; the clock is injected,
so each mutating operation takes the clock's current reading explicitly. -/
structure VolatileHashSet (α : Type) where
  entries : List (α × Nat)
  ttl : Nat
deriving DecidableEq

/-- Modelled from the spec: `insert` records the key with the injected clock's
current time as its last-seen timestamp (replacing any previous entry). -/
def VolatileHashSet.insert {α : Type} [DecidableEq α]
    (s : VolatileHashSet α) (k : α) (now : Nat) : VolatileHashSet α :=
  { s with entries := s.entries.filter (fun e => e.1 ≠ k) ++ [(k, now)] }

/-- Modelled from the spec: `contains` is a pure membership test; it never
consults the clock and never expires entries. -/
def VolatileHashSet.contains {α : Type} [DecidableEq α]
    (s : VolatileHashSet α) (k : α) : Bool :=
  s.entries.any (fun e => e.1 = k)

/-- Modelled from the spec: `refresh` is the only eviction point; it drops
every entry present longer than the TTL (timestamp + TTL before now). -/
def VolatileHashSet.refresh {α : Type} [DecidableEq α]
    (s : VolatileHashSet α) (now : Nat) : VolatileHashSet α :=
  { s with entries := s.entries.filter (fun e => now ≤ e.2 + s.ttl) }

/-- Modelled from the spec: `NodeRef` (in the `model` module, not under `src/`)
is a peer identity carrying one or more candidate addresses. -/
structure NodeRef where
  id : List Nat
  addrs : List String
deriving DecidableEq

/-- Failure outcomes inside the discovery loop. -/
inductive NodeFinderErr where
  | connectFailed (addr : String)
  | handshakeFailed
deriving DecidableEq

/-- The inner address loop of `NodeFinder::internal_connect`
(`node_finder.rs:94-97`): for each address, `connect(&a, &NodeFinder).await?`
then `handshake(&session).await?`. There is no break on success, and any error
propagates via `?`. Returns the attempts made (address and requested session
type) and the loop's outcome. `handshake` is `todo!()` in the source, so it is
held abstract. -/
def NodeFinder.tryAddrs (connect : String → SessionType → Except NodeFinderErr Session)
    (handshake : Session → Except NodeFinderErr (List Nat)) :
    List String → List (String × SessionType) × Except NodeFinderErr Unit
  | [] => ([], .ok ())
  | a :: rest =>
    match connect a SessionType.NodeFinder with
    | .error e => ([(a, SessionType.NodeFinder)], .error e)
    | .ok session =>
      match handshake session with
      | .error e => ([(a, SessionType.NodeFinder)], .error e)
      | .ok _ =>
        let next := NodeFinder.tryAddrs connect handshake rest
        ((a, SessionType.NodeFinder) :: next.1, next.2)

/-- The candidate loop of `NodeFinder::internal_connect`
(`node_finder.rs:89-100`): skip candidates already in the membership set
(`continue`), run the address loop, insert the candidate after it completes.
An error from the address loop aborts the whole function via `?`. -/
def NodeFinder.connectLoop (connect : String → SessionType → Except NodeFinderErr Session)
    (handshake : Session → Except NodeFinderErr (List Nat)) (now : Nat) :
    VolatileHashSet NodeRef → List NodeRef →
      List (String × SessionType) × Except NodeFinderErr (VolatileHashSet NodeRef)
  | members, [] => ([], .ok members)
  | members, v :: rest =>
    if members.contains v then
      NodeFinder.connectLoop connect handshake now members rest
    else
      let t := NodeFinder.tryAddrs connect handshake v.addrs
      match t.2 with
      | .error e => (t.1, .error e)
      | .ok _ =>
        let next := NodeFinder.connectLoop connect handshake now (members.insert v now) rest
        (t.1 ++ next.1, next.2)

/-- `NodeFinder::internal_connect` (`node_finder.rs:75-103`): refresh the
membership set, then run the candidate loop. (The source's `arr.choose`
fragment references an undefined `arr` and has no effect on the loop; it is
omitted.) -/
def NodeFinder.internal_connect (connect : String → SessionType → Except NodeFinderErr Session)
    (handshake : Session → Except NodeFinderErr (List Nat)) (now : Nat)
    (members : VolatileHashSet NodeRef) (candidates : List NodeRef) :
    List (String × SessionType) × Except NodeFinderErr (VolatileHashSet NodeRef) :=
  NodeFinder.connectLoop connect handshake now (members.refresh now) candidates

/-! Concrete instances used by counterexamples and witnesses. -/

/-- A crypto environment whose certificates carry the signed bytes and whose
verification checks them against the expected bytes. -/
def c1Crypto : CryptoEnv :=
  { sign := fun n => { payload := n }, verify := fun c n => c.payload == n }

/-- An inbound connection whose peer Hello offers the empty version set
(bits 0, a valid `from_bits` encoding) and is otherwise well-formed. -/
def c1Input : AcceptInput :=
  { tcpOk := true
    peerAddr := "peer"
    peerHello := some { version := { bits := 0 } }
    selfRandom := List.replicate 32 0
    peerChallenge := some { nonce := List.replicate 32 7 }
    peerSignature := some { cert := { payload := List.replicate 32 0 } }
    peerRequest := some { request_type := .NodeExchanger } }

/-- A fresh channel state for each session type. -/
def c1Chan : SessionType → MpscChannel := fun _ => { buf := [], senderAlive := true }

/-- C1: the claim says the negotiated version is the bitwise AND of the two
offered sets and that an empty intersection fails the handshake. The code
(`accepter.rs:138`) computes the bitwise OR instead: with a peer offering the
empty set the intersection with V1 is empty, yet the handshake proceeds,
succeeds, and publishes a session. -/
theorem c1_hello_version_union_bug :
    SessionVersion.fromBits 0 = some { bits := 0 } ∧
    SessionVersion.inter SessionVersion.V1 { bits := 0 } = { bits := 0 } ∧
    SessionVersion.union SessionVersion.V1 { bits := 0 } = SessionVersion.V1 ∧
    (AccepterTask.accept c1Crypto sessionTypesInit c1Chan c1Input).outcome = .ok () ∧
    ((AccepterTask.accept c1Crypto sessionTypesInit c1Chan c1Input).chan
        SessionType.NodeFinder).buf.length = 1 :=
  ⟨rfl, rfl, rfl, rfl, rfl⟩

/-- C2: in the Signature step the responder signs exactly the nonce received
in the peer challenge and verifies the received signature against the nonce it
itself generated and sent; a verification failure terminates the handshake with
an error, sends no further message, and publishes no session into any queue. -/
theorem c2_signature_binding (crypto : CryptoEnv) (keys : List SessionType)
    (chan : SessionType → MpscChannel) (input : AcceptInput)
    (hm : HelloMessage) (cm : V1ChallengeMessage) (sm : V1SignatureMessage)
    (htcp : input.tcpOk = true)
    (hh : input.peerHello = some hm)
    (hv : (SessionVersion.union SessionVersion.V1 hm.version).contains SessionVersion.V1 = true)
    (hlen : input.selfRandom.length = 32)
    (hc : input.peerChallenge = some cm)
    (hs : input.peerSignature = some sm) :
    ((AccepterTask.accept crypto keys chan input).sent.take 3
        = [.hello { version := SessionVersion.V1 },
           .challenge { nonce := input.selfRandom },
           .signature { cert := crypto.sign cm.nonce }]) ∧
    (crypto.verify sm.cert input.selfRandom = false →
        (AccepterTask.accept crypto keys chan input).outcome = .error .invalidSignature ∧
        (AccepterTask.accept crypto keys chan input).chan = chan ∧
        (AccepterTask.accept crypto keys chan input).sent
          = [.hello { version := SessionVersion.V1 },
             .challenge { nonce := input.selfRandom },
             .signature { cert := crypto.sign cm.nonce }]) ∧
    (crypto.verify sm.cert input.selfRandom = true →
        (AccepterTask.accept crypto keys chan input).outcome ≠ .error .invalidSignature) := by
  unfold AccepterTask.accept
  simp only [htcp, hh, hc, hs, hlen, hv]
  simp only [Bool.true_eq_false, if_false, reduceIte]
  constructor
  · by_cases hver : crypto.verify sm.cert input.selfRandom = false
    · simp [hver]
    · simp only [hver, reduceIte]
      rcases hreq : input.peerRequest with _ | rm
      · simp
      · rcases rm with ⟨rt⟩
        cases rt
        · simp
        · by_cases hk : SessionType.NodeFinder ∈ keys
          · by_cases hcap : (chan SessionType.NodeFinder).buf.length < channelCapacity
            · simp [hk, hcap]
            · simp [hk, hcap]
          · simp [hk]
  constructor
  · intro hver
    simp [hver]
  · intro hver
    simp only [hver, reduceIte]
    rcases hreq : input.peerRequest with _ | rm
    · simp
    · rcases rm with ⟨rt⟩
      cases rt
      · simp
      · by_cases hk : SessionType.NodeFinder ∈ keys
        · by_cases hcap : (chan SessionType.NodeFinder).buf.length < channelCapacity
          · simp [hk, hcap]
          · simp [hk, hcap]
        · simp [hk]

/-- A crypto environment that rejects every signature. -/
def c2Crypto : CryptoEnv :=
  { sign := fun n => { payload := n }, verify := fun _ _ => false }

/-- A well-formed inbound connection up to the Signature step. -/
def c2Input : AcceptInput :=
  { tcpOk := true
    peerAddr := "p"
    peerHello := some { version := SessionVersion.V1 }
    selfRandom := List.replicate 32 0
    peerChallenge := some { nonce := List.replicate 32 1 }
    peerSignature := some { cert := { payload := [2] } }
    peerRequest := none }

/-- Fresh channels for the C2 witness. -/
def c2Chan : SessionType → MpscChannel := fun _ => { buf := [], senderAlive := true }

/-- Witness for C2 at a concrete input whose signature fails verification. -/
theorem c2_signature_binding_witness :
    c2Input.tcpOk = true ∧
    c2Input.selfRandom.length = 32 ∧
    c2Crypto.verify { payload := [2] } c2Input.selfRandom = false ∧
    (AccepterTask.accept c2Crypto sessionTypesInit c2Chan c2Input).outcome
      = .error .invalidSignature ∧
    (AccepterTask.accept c2Crypto sessionTypesInit c2Chan c2Input).chan = c2Chan := by
  refine ⟨rfl, rfl, rfl, ?_, ?_⟩
  · exact ((c2_signature_binding c2Crypto sessionTypesInit c2Chan c2Input
      { version := SessionVersion.V1 } { nonce := List.replicate 32 1 }
      { cert := { payload := [2] } } rfl rfl (by decide) rfl rfl rfl).2.1 rfl).1
  · exact ((c2_signature_binding c2Crypto sessionTypesInit c2Chan c2Input
      { version := SessionVersion.V1 } { nonce := List.replicate 32 1 }
      { cert := { payload := [2] } } rfl rfl (by decide) rfl rfl rfl).2.1 rfl).2.1

/-- C3: the responder sends Accept only in the branch where `try_reserve` has
granted a slot (queue shorter than the capacity, 20) and then publishes the
session through that slot; when no slot is available it sends Reject, leaves
the queues untouched, produces no session, and still returns a non-error
outcome — so while all 20 buffered sessions are unconsumed, a further
successful handshake for the type receives Reject. -/
theorem c3_admission_reserve (crypto : CryptoEnv) (keys : List SessionType)
    (chan : SessionType → MpscChannel) (input : AcceptInput)
    (hm : HelloMessage) (cm : V1ChallengeMessage) (sm : V1SignatureMessage)
    (htcp : input.tcpOk = true)
    (hh : input.peerHello = some hm)
    (hv : (SessionVersion.union SessionVersion.V1 hm.version).contains SessionVersion.V1 = true)
    (hlen : input.selfRandom.length = 32)
    (hc : input.peerChallenge = some cm)
    (hs : input.peerSignature = some sm)
    (hver : crypto.verify sm.cert input.selfRandom = true)
    (hr : input.peerRequest = some { request_type := .NodeExchanger })
    (hk : SessionType.NodeFinder ∈ keys) :
    channelCapacity = 20 ∧
    ((chan SessionType.NodeFinder).buf.length < channelCapacity →
        (AccepterTask.accept crypto keys chan input).sent
          = [.hello { version := SessionVersion.V1 },
             .challenge { nonce := input.selfRandom },
             .signature { cert := crypto.sign cm.nonce },
             .result { result_type := .Accept }] ∧
        ((AccepterTask.accept crypto keys chan input).chan SessionType.NodeFinder).buf
          = (chan SessionType.NodeFinder).buf ++
              [{ typ := SessionType.NodeFinder
                 address := OmniAddress.new ("tcp(" ++ input.peerAddr ++ ")")
                 handshake_type := .Accepted
                 signature := sm.cert }] ∧
        (AccepterTask.accept crypto keys chan input).outcome = .ok ()) ∧
    (channelCapacity ≤ (chan SessionType.NodeFinder).buf.length →
        (AccepterTask.accept crypto keys chan input).sent
          = [.hello { version := SessionVersion.V1 },
             .challenge { nonce := input.selfRandom },
             .signature { cert := crypto.sign cm.nonce },
             .result { result_type := .Reject }] ∧
        (AccepterTask.accept crypto keys chan input).chan = chan ∧
        (AccepterTask.accept crypto keys chan input).outcome = .ok ()) := by
  refine ⟨rfl, ?_, ?_⟩
  · intro hcap
    unfold AccepterTask.accept
    simp only [htcp, hh, hc, hs, hlen, hv, hr]
    simp only [Bool.true_eq_false, if_false, reduceIte]
    simp [hk, hcap, hver]
  · intro hcap
    unfold AccepterTask.accept
    simp only [htcp, hh, hc, hs, hlen, hv, hr]
    simp only [Bool.true_eq_false, if_false, reduceIte]
    simp [hk, Nat.not_lt.mpr hcap, hver]

/-- A session occupying queue slots in the C3 witness. -/
def c3Session : Session :=
  { typ := SessionType.NodeFinder
    address := { value := "tcp(q)" }
    handshake_type := .Accepted
    signature := { payload := [] } }

/-- Channels whose NodeFinder queue is full (all 20 slots unconsumed). -/
def c3Chan : SessionType → MpscChannel :=
  fun _ => { buf := List.replicate 20 c3Session, senderAlive := true }

/-- A crypto environment that accepts every signature. -/
def c3Crypto : CryptoEnv :=
  { sign := fun n => { payload := n }, verify := fun _ _ => true }

/-- A fully well-formed inbound connection requesting NodeExchanger. -/
def c3Input : AcceptInput :=
  { tcpOk := true
    peerAddr := "p"
    peerHello := some { version := SessionVersion.V1 }
    selfRandom := List.replicate 32 0
    peerChallenge := some { nonce := List.replicate 32 1 }
    peerSignature := some { cert := { payload := [3] } }
    peerRequest := some { request_type := .NodeExchanger } }

/-- Witness for C3 at a concrete input against a full queue: Reject is sent,
no session is published, and the outcome is not an error. -/
theorem c3_admission_reserve_witness :
    channelCapacity ≤ (c3Chan SessionType.NodeFinder).buf.length ∧
    (AccepterTask.accept c3Crypto sessionTypesInit c3Chan c3Input).sent
      = [.hello { version := SessionVersion.V1 },
         .challenge { nonce := c3Input.selfRandom },
         .signature { cert := c3Crypto.sign (List.replicate 32 1) },
         .result { result_type := .Reject }] ∧
    (AccepterTask.accept c3Crypto sessionTypesInit c3Chan c3Input).chan = c3Chan ∧
    (AccepterTask.accept c3Crypto sessionTypesInit c3Chan c3Input).outcome = .ok () := by
  have h := (c3_admission_reserve c3Crypto sessionTypesInit c3Chan c3Input
      { version := SessionVersion.V1 } { nonce := List.replicate 32 1 }
      { cert := { payload := [3] } } rfl rfl (by decide) rfl rfl rfl rfl rfl
      (by decide)).2.2 (by decide)
  exact ⟨by decide, h.1, h.2.1, h.2.2⟩

/-- Unfolding equation for the candidate loop on a non-empty candidate list. -/
theorem NodeFinder.connectLoop_cons (connect : String → SessionType → Except NodeFinderErr Session)
    (handshake : Session → Except NodeFinderErr (List Nat)) (now : Nat)
    (members : VolatileHashSet NodeRef) (v : NodeRef) (rest : List NodeRef) :
    NodeFinder.connectLoop connect handshake now members (v :: rest)
      = if members.contains v then
          NodeFinder.connectLoop connect handshake now members rest
        else
          let t := NodeFinder.tryAddrs connect handshake v.addrs
          match t.2 with
          | .error e => (t.1, .error e)
          | .ok _ =>
            let next := NodeFinder.connectLoop connect handshake now (members.insert v now) rest
            (t.1 ++ next.1, next.2) := rfl

/-- C4 (amended): in a discovery cycle, a candidate already in the membership
set is skipped without any connection attempt; for a candidate not in the set
the loop attempts its addresses in order, each via the connector requesting
`SessionType::NodeFinder`, and — contrary to the original claim — does not stop
at the first established session: when every address yields a session it
attempts them all, then inserts the candidate and continues with the rest. -/
theorem c4_discovery_candidate_loop :
    (∀ (connect : String → SessionType → Except NodeFinderErr Session)
        (handshake : Session → Except NodeFinderErr (List Nat))
        (now : Nat) (members : VolatileHashSet NodeRef) (v : NodeRef) (rest : List NodeRef),
        members.contains v = true →
        NodeFinder.connectLoop connect handshake now members (v :: rest)
          = NodeFinder.connectLoop connect handshake now members rest) ∧
    (∀ (connect : String → SessionType → Except NodeFinderErr Session)
        (handshake : Session → Except NodeFinderErr (List Nat)) (addrs : List String),
        (∀ a ∈ addrs, ∃ s, connect a SessionType.NodeFinder = Except.ok s) →
        (∀ s, ∃ i, handshake s = Except.ok i) →
        (NodeFinder.tryAddrs connect handshake addrs).1
          = addrs.map (fun a => (a, SessionType.NodeFinder)) ∧
        (NodeFinder.tryAddrs connect handshake addrs).2 = Except.ok ()) ∧
    (∀ (connect : String → SessionType → Except NodeFinderErr Session)
        (handshake : Session → Except NodeFinderErr (List Nat))
        (now : Nat) (members : VolatileHashSet NodeRef) (v : NodeRef) (rest : List NodeRef),
        members.contains v = false →
        (∀ a ∈ v.addrs, ∃ s, connect a SessionType.NodeFinder = Except.ok s) →
        (∀ s, ∃ i, handshake s = Except.ok i) →
        NodeFinder.connectLoop connect handshake now members (v :: rest)
          = (v.addrs.map (fun a => (a, SessionType.NodeFinder))
               ++ (NodeFinder.connectLoop connect handshake now (members.insert v now) rest).1,
             (NodeFinder.connectLoop connect handshake now (members.insert v now) rest).2)) := by
  have htry : ∀ (connect : String → SessionType → Except NodeFinderErr Session)
      (handshake : Session → Except NodeFinderErr (List Nat)) (addrs : List String),
      (∀ a ∈ addrs, ∃ s, connect a SessionType.NodeFinder = Except.ok s) →
      (∀ s, ∃ i, handshake s = Except.ok i) →
      (NodeFinder.tryAddrs connect handshake addrs).1
        = addrs.map (fun a => (a, SessionType.NodeFinder)) ∧
      (NodeFinder.tryAddrs connect handshake addrs).2 = Except.ok () := by
    intro connect handshake addrs hconn hhs
    induction addrs with
    | nil => exact ⟨rfl, rfl⟩
    | cons a rest ih =>
      obtain ⟨s, hs⟩ := hconn a (List.mem_cons_self a rest)
      obtain ⟨i, hi⟩ := hhs s
      have ih2 := ih (fun a ha => hconn a (List.mem_cons_of_mem _ ha))
      simp [NodeFinder.tryAddrs, hs, hi, ih2.1, ih2.2]
  refine ⟨?_, htry, ?_⟩
  · intro connect handshake now members v rest h
    rw [NodeFinder.connectLoop_cons]
    simp [h]
  · intro connect handshake now members v rest hmem hconn hhs
    have h2 := htry connect handshake v.addrs hconn hhs
    rw [NodeFinder.connectLoop_cons]
    simp only [hmem, Bool.false_eq_true, if_false]
    rw [h2.2, h2.1]

/-- A connector for which every address yields a session. -/
def c4Connect : String → SessionType → Except NodeFinderErr Session :=
  fun a _ =>
    .ok { typ := SessionType.NodeFinder, address := { value := a },
          handshake_type := .Connected, signature := { payload := [] } }

/-- A post-connect handshake that always succeeds. -/
def c4Handshake : Session → Except NodeFinderErr (List Nat) := fun _ => .ok []

/-- An empty membership set with a 10-tick TTL. -/
def c4Members : VolatileHashSet NodeRef := { entries := [], ttl := 10 }

/-- A candidate with two addresses, both of which connect successfully. -/
def c4Candidate : NodeRef := { id := [1], addrs := ["a1", "a2"] }

/-- Counterexample for C4 as stated: the first address already yields an
established session, yet the cycle also contacts the second address — the loop
does not stop at the first success. -/
theorem c4_no_break_counterexample :
    (c4Connect "a1" SessionType.NodeFinder).isOk = true ∧
    (NodeFinder.internal_connect c4Connect c4Handshake 0 c4Members [c4Candidate]).1
      = [("a1", SessionType.NodeFinder), ("a2", SessionType.NodeFinder)] :=
  ⟨rfl, rfl⟩

/-- Witness for C4 (amended) at a concrete candidate outside the set. -/
theorem c4_discovery_candidate_loop_witness :
    c4Members.contains c4Candidate = false ∧
    NodeFinder.connectLoop c4Connect c4Handshake 0 c4Members [c4Candidate]
      = (c4Candidate.addrs.map (fun a => (a, SessionType.NodeFinder))
           ++ (NodeFinder.connectLoop c4Connect c4Handshake 0
                 (c4Members.insert c4Candidate 0) []).1,
         (NodeFinder.connectLoop c4Connect c4Handshake 0
             (c4Members.insert c4Candidate 0) []).2) :=
  ⟨rfl, c4_discovery_candidate_loop.2.2 c4Connect c4Handshake 0 c4Members c4Candidate []
     rfl (fun _ _ => ⟨_, rfl⟩) (fun _ => ⟨[], rfl⟩)⟩

/-- A connector that fails on address a1 and succeeds elsewhere. -/
def c5Connect : String → SessionType → Except NodeFinderErr Session :=
  fun a _ =>
    if a = "a1" then .error (.connectFailed a)
    else
      .ok { typ := SessionType.NodeFinder, address := { value := a },
            handshake_type := .Connected, signature := { payload := [] } }

/-- A post-connect handshake that always succeeds. -/
def c5Handshake : Session → Except NodeFinderErr (List Nat) := fun _ => .ok []

/-- An empty membership set with a 10-tick TTL. -/
def c5Members : VolatileHashSet NodeRef := { entries := [], ttl := 10 }

/-- Two candidates: the first with the failing address a1, the second with the
working address b1. -/
def c5Candidates : List NodeRef :=
  [{ id := [1], addrs := ["a1"] }, { id := [2], addrs := ["b1"] }]

/-- C5: the claim says a connect failure is non-fatal to the cycle and the loop
proceeds to the remaining candidates. In the code the failure propagates
through the question-mark operator: after the failed attempt on a1 the cycle
returns an error, the second candidate and its address b1 are never attempted,
and no membership registration happens. -/
theorem c5_connect_failure_aborts_cycle :
    (NodeFinder.internal_connect c5Connect c5Handshake 0 c5Members c5Candidates).1
      = [("a1", SessionType.NodeFinder)] ∧
    (NodeFinder.internal_connect c5Connect c5Handshake 0 c5Members c5Candidates).2
      = .error (.connectFailed "a1") :=
  ⟨rfl, rfl⟩

/-- C6 (amended): `accept` yields the first available buffered session of the
requested type; `terminate` cancels the workers and awaits their joined tasks,
but leaves the sender handles in place, so the channel of each type stays open
and a pending `accept` after termination remains suspended instead of failing
with the closed condition. -/
theorem c6_terminate_keeps_channels_open :
    (∀ st : SessionAccepterState,
        (SessionAccepter.terminate st).cancelled = true ∧
        (SessionAccepter.terminate st).joined = true ∧
        (SessionAccepter.terminate st).chan = st.chan ∧
        (SessionAccepter.terminate st).receiversKeys = st.receiversKeys) ∧
    (∀ (st : SessionAccepterState) (typ : SessionType),
        typ ∈ st.receiversKeys →
        (st.chan typ).buf = [] →
        (st.chan typ).senderAlive = true →
        (SessionAccepter.acceptCall (SessionAccepter.terminate st) typ).1 = .pending) ∧
    (∀ (st : SessionAccepterState) (typ : SessionType) (s : Session) (rest : List Session),
        typ ∈ st.receiversKeys →
        (st.chan typ).buf = s :: rest →
        (SessionAccepter.acceptCall st typ).1 = .session s) := by
  refine ⟨fun st => ⟨rfl, rfl, rfl, rfl⟩, ?_, ?_⟩
  · intro st typ hk hbuf halive
    unfold SessionAccepter.acceptCall SessionAccepter.terminate
    simp [hk, hbuf, halive]
  · intro st typ s rest hk hbuf
    unfold SessionAccepter.acceptCall
    simp [hk, hbuf]

/-- Counterexample for C6 as stated: after construction and `terminate`, a call
to `accept` for NodeFinder is still pending (the channel is not closed), rather
than failing with the closed condition the claim requires. -/
theorem c6_accept_after_terminate_counterexample :
    (SessionAccepter.acceptCall (SessionAccepter.terminate SessionAccepter.newState)
        SessionType.NodeFinder).1 = AcceptCallOutcome.pending ∧
    AcceptCallOutcome.pending ≠ AcceptCallOutcome.closedError :=
  ⟨rfl, by decide⟩

/-- Witness for C6 (amended) at the freshly constructed accepter state. -/
theorem c6_terminate_keeps_channels_open_witness :
    SessionType.NodeFinder ∈ SessionAccepter.newState.receiversKeys ∧
    (SessionAccepter.newState.chan SessionType.NodeFinder).buf = [] ∧
    (SessionAccepter.newState.chan SessionType.NodeFinder).senderAlive = true ∧
    (SessionAccepter.acceptCall (SessionAccepter.terminate SessionAccepter.newState)
        SessionType.NodeFinder).1 = AcceptCallOutcome.pending :=
  ⟨by decide, rfl, rfl,
   c6_terminate_keeps_channels_open.2.1 SessionAccepter.newState SessionType.NodeFinder
     (by decide) rfl rfl⟩

/-- C7: each worker loop discards the outcome of every accept attempt and
proceeds to the next iteration, so a failing inbound connection (transport
error, malformed message, signature failure) stops neither the failing worker
nor any sibling: every worker of the 3-task pool processes all of its attempts
no matter which attempts fail. -/
theorem c7_worker_error_containment (crypto : CryptoEnv) (keys : List SessionType)
    (chan : SessionType → MpscChannel) (ws : List (List AcceptInput))
    (h : ws.length = accepterWorkerCount) :
    (AccepterTask.runPool crypto keys chan ws).2 = ws.map List.length ∧
    (AccepterTask.runPool crypto keys chan ws).2.length = accepterWorkerCount := by
  have hw : ∀ (inputs : List AcceptInput) (chan : SessionType → MpscChannel),
      (AccepterTask.runWorker crypto keys chan inputs).2 = inputs.length := by
    intro inputs
    induction inputs with
    | nil => intro chan; rfl
    | cons i rest ih => intro chan; simp [AccepterTask.runWorker, ih]
  have main : ∀ (ws : List (List AcceptInput)) (chan : SessionType → MpscChannel),
      (AccepterTask.runPool crypto keys chan ws).2 = ws.map List.length := by
    intro ws
    induction ws with
    | nil => intro chan; rfl
    | cons w rest ih => intro chan; simp [AccepterTask.runPool, hw, ih]
  exact ⟨main ws chan, by rw [main ws chan, List.length_map, h]⟩

/-- A crypto environment for the C7 witness. -/
def c7Crypto : CryptoEnv :=
  { sign := fun n => { payload := n }, verify := fun _ _ => true }

/-- Fresh channels for the C7 witness. -/
def c7Chan : SessionType → MpscChannel := fun _ => { buf := [], senderAlive := true }

/-- An inbound attempt that fails at the transport accept. -/
def c7BadInput : AcceptInput :=
  { tcpOk := false, peerAddr := "x", peerHello := none, selfRandom := []
    peerChallenge := none, peerSignature := none, peerRequest := none }

/-- A 3-worker pool whose first worker sees two failing attempts and whose
second worker sees one. -/
def c7Workers : List (List AcceptInput) := [[c7BadInput, c7BadInput], [c7BadInput], []]

/-- Witness for C7: with failing attempts in two workers, every worker still
processes all of its attempts. -/
theorem c7_worker_error_containment_witness :
    c7Workers.length = accepterWorkerCount ∧
    (AccepterTask.runPool c7Crypto sessionTypesInit c7Chan c7Workers).2
      = c7Workers.map List.length :=
  ⟨rfl, (c7_worker_error_containment c7Crypto sessionTypesInit c7Chan c7Workers rfl).1⟩

/-- C8: for the volatile membership set, an entry inserted at time t0 is still
reported by `contains` before any `refresh`, even past the TTL; the next
`refresh` with the clock past t0 + TTL removes it, after which `contains` is
false; and `insert` never implicitly expires or resurrects other entries
(`contains` is a pure read). -/
theorem c8_ttl_refresh_only_eviction {α : Type} [DecidableEq α]
    (s : VolatileHashSet α) (k : α) (t0 t1 : Nat) (h : t0 + s.ttl < t1) :
    (s.insert k t0).contains k = true ∧
    ((s.insert k t0).refresh t1).contains k = false ∧
    (∀ j, j ≠ k → (s.insert k t0).contains j = s.contains j) := by
  refine ⟨?_, ?_, ?_⟩
  · rw [VolatileHashSet.insert, VolatileHashSet.contains, List.any_eq_true]
    exact ⟨(k, t0), by simp, by simp⟩
  · rw [VolatileHashSet.insert, VolatileHashSet.refresh, VolatileHashSet.contains,
      List.any_eq_false]
    intro e he
    simp only [List.mem_filter, List.mem_append, List.mem_singleton] at he
    rcases he with ⟨he1 | he2, hkeep⟩
    · simp only [List.mem_filter, decide_eq_true_eq] at he1
      simpa using he1.2
    · subst he2
      simp only [decide_eq_true_eq] at hkeep
      omega
  · intro j hj
    rw [VolatileHashSet.insert, VolatileHashSet.contains, VolatileHashSet.contains,
      List.any_append, List.any_filter]
    have h2 : ([((k : α), t0)].any fun e => e.1 = j) = false := by
      simp [Ne.symm hj]
    rw [h2, Bool.or_false, Bool.eq_iff_iff]
    simp only [List.any_eq_true, Bool.and_eq_true, decide_eq_true_eq, Bool.not_eq_true',
      decide_eq_false_iff_not]
    constructor
    · rintro ⟨a, ha, -, haj⟩
      exact ⟨a, ha, haj⟩
    · rintro ⟨a, ha, haj⟩
      exact ⟨a, ha, by rw [haj]; exact hj, haj⟩

/-- An empty membership set over Nat keys with a 5-tick TTL. -/
def c8Set : VolatileHashSet Nat := { entries := [], ttl := 5 }

/-- Witness for C8: key 1 inserted at time 0, clock advanced to 6 (past the
TTL of 5): contains is true before refresh and false after. -/
theorem c8_ttl_refresh_only_eviction_witness :
    0 + c8Set.ttl < 6 ∧
    (c8Set.insert 1 0).contains 1 = true ∧
    ((c8Set.insert 1 0).refresh 6).contains 1 = false :=
  ⟨by decide, (c8_ttl_refresh_only_eviction c8Set 1 0 6 (by decide)).1,
   (c8_ttl_refresh_only_eviction c8Set 1 0 6 (by decide)).2.1⟩

/-- C9: the wire encodings of the purpose-negotiation enums match the
interface table: packing a request with NodeExchanger writes 1, packing a
result writes 1 for Accept and 2 for Reject, and unpack is a left inverse of
pack for these messages. -/
theorem c9_wire_enums :
    V1RequestMessage.pack { request_type := .NodeExchanger } = [1] ∧
    V1ResultMessage.pack { result_type := .Accept } = [1] ∧
    V1ResultMessage.pack { result_type := .Reject } = [2] ∧
    (∀ m : V1RequestMessage, V1RequestMessage.unpack (V1RequestMessage.pack m) = some m) ∧
    (∀ m : V1ResultMessage, V1ResultMessage.unpack (V1ResultMessage.pack m) = some m) := by
  refine ⟨rfl, rfl, rfl, ?_, ?_⟩
  · rintro ⟨t⟩; cases t <;> rfl
  · rintro ⟨t⟩; cases t <;> rfl

/-- C10: after construction both the senders and the receivers map hold an
entry for every value of the `SessionType` enumeration, so the unchecked map
lookups in `SessionAccepter::accept` and in the responder admission step can
never hit the missing-key panic, for any requested type and any channel
state. -/
theorem c10_channel_maps_total :
    (∀ t : SessionType,
        SessionAccepter.newState.sendersKeys.contains t = true ∧
        SessionAccepter.newState.receiversKeys.contains t = true) ∧
    (∀ st : SessionAccepterState, st.receiversKeys = SessionAccepter.newState.receiversKeys →
        ∀ t, (SessionAccepter.acceptCall st t).1 ≠ .unwrapPanic) ∧
    (∀ (crypto : CryptoEnv) (chan : SessionType → MpscChannel) (input : AcceptInput),
        (AccepterTask.accept crypto SessionAccepter.newState.sendersKeys chan input).outcome
          ≠ .error .unwrapPanic) := by
  refine ⟨?_, ?_, ?_⟩
  · intro t; cases t; exact ⟨rfl, rfl⟩
  · intro st hkeys t
    cases t
    have hct : SessionType.NodeFinder ∈ st.receiversKeys := by
      rw [hkeys]
      simp [SessionAccepter.newState, sessionTypesInit]
    unfold SessionAccepter.acceptCall
    rcases hbuf : (st.chan SessionType.NodeFinder).buf with _ | ⟨s, r⟩
    · by_cases ha : (st.chan SessionType.NodeFinder).senderAlive = true <;>
        simp [hct, hbuf, ha]
    · simp [hct, hbuf]
  · intro crypto chan input
    unfold AccepterTask.accept
    repeat' split <;> try simp_all [SessionAccepter.newState, sessionTypesInit]

/-- Witness for C10 at the freshly constructed state and the NodeFinder type. -/
theorem c10_channel_maps_total_witness :
    SessionAccepter.newState.receiversKeys = SessionAccepter.newState.receiversKeys ∧
    (SessionAccepter.acceptCall SessionAccepter.newState SessionType.NodeFinder).1
      ≠ AcceptCallOutcome.unwrapPanic :=
  ⟨rfl, c10_channel_maps_total.2.1 SessionAccepter.newState rfl SessionType.NodeFinder⟩

end Axus
